import Mathlib

/-!
Verification of the build pipeline orchestrator of landscape2
(src/build.rs), shallowly embedded in Lean 4.

The embedding mirrors the Rust source:
- machine-level details that are pure are Lean functions;
- filesystem and task effects are modelled by explicit state
  (a list of created file names / an environment record);
- fallible operations return Except.
-/

namespace Landscape2

/-- Path where the datasets will be written to in the output directory
(constant DATASETS_PATH in build.rs). -/
def DATASETS_PATH : String := "data"

/-- Path where the logos will be written to in the output directory
(constant LOGOS_PATH in build.rs). -/
def LOGOS_PATH : String := "logos"

/-- Maximum number of logos to prepare concurrently
(constant PREPARE_LOGOS_MAX_CONCURRENCY in build.rs). -/
def PREPARE_LOGOS_MAX_CONCURRENCY : Nat := 20

/-- One landscape item. Only the fields the pipeline touches are modelled
explicitly: the stable identity (a Uuid in the source, modelled as Nat) and
the mutable logo reference. All remaining fields of the Rust struct are
folded into the opaque field named rest. -/
structure Item where
  id : Nat
  logo : String
  rest : Nat
deriving DecidableEq, Repr

/-- Result of prepare_logo in the source: normalized image bytes together
with their content digest (struct Logo in logos.rs). -/
structure Logo where
  digest : String
  svg_data : List Nat
deriving DecidableEq, Repr

/-- Outcome of the spawned per-item task in prepare_logos (build.rs
lines 200 to 214): the tokio::spawn join handle yields either the inner
prepare_logo result (Ok(Ok ..) or Ok(Err ..)) or a join error when the
task itself was aborted or panicked (Err ..). -/
inductive TaskResult where
  | ok : Logo → TaskResult
  | opErr : TaskResult
  | joinErr : TaskResult
deriving DecidableEq, Repr

/-- Filesystem behaviour seen by the per-item closure: whether creating
the output file with a given name succeeds, and whether writing the bytes
to it succeeds. -/
structure FileOps where
  createOk : String → Bool
  writeOk : String → Bool

/-- Process environment, restricted to the two variables read_credentials
reads (build.rs lines 249 and 252). An unset variable is none. -/
structure Env where
  crunchbase_api_key : Option String
  github_tokens : Option String
deriving DecidableEq, Repr

/-- External services credentials (struct Credentials in build.rs). -/
structure Credentials where
  crunchbase_api_key : Option String
  github_tokens : Option (List String)
deriving DecidableEq, Repr

/-- Helper for splitComma: walks the characters, accumulating the current
piece (in reverse); a comma closes the current piece and opens a new one,
so the final accumulator always contributes one (possibly empty) piece. -/
def splitCommaAux : List Char → List Char → List (List Char)
  | [], acc => [acc.reverse]
  | c :: cs, acc =>
      if c = ',' then acc.reverse :: splitCommaAux cs []
      else splitCommaAux cs (c :: acc)

/-- Translation of Rust's str::split(',') as used at build.rs line 253:
the pieces of the string between commas, in order, kept verbatim (no
trimming, empty pieces included; the empty string yields one empty
piece, exactly as str::split does). -/
def splitComma (s : String) : List String :=
  (splitCommaAux s.data []).map String.mk

/-- Translation of read_credentials (build.rs lines 246 to 257): the
Crunchbase key is taken verbatim when set; the GitHub tokens variable,
when set, is split on commas, each piece kept as a string. -/
def read_credentials (env : Env) : Credentials :=
  { crunchbase_api_key := env.crunchbase_api_key
    github_tokens := env.github_tokens.map splitComma }

/-- Translation of the per-item closure inside prepare_logos (build.rs
lines 194 to 227). The spawned task resolves the item's original logo
reference; an op error or a join error yields (id, none). On success the
output file named digest.svg is created in the logos dir: a create failure
yields (id, none); a write failure is only logged and the pair
(id, some "logos/digest.svg") is still returned. -/
def prepareLogoItem (resolve : String → TaskResult) (fops : FileOps)
    (item : Item) : Nat × Option String :=
  match resolve item.logo with
  | TaskResult.opErr => (item.id, none)
  | TaskResult.joinErr => (item.id, none)
  | TaskResult.ok logo =>
      let file_name := logo.digest ++ ".svg"
      if fops.createOk file_name then
        (item.id, some (LOGOS_PATH ++ "/" ++ file_name))
      else
        (item.id, none)

/-- Per-item results of the concurrent phase of prepare_logos, in stream
order. The HashMap built by collect is modelled as this association list
(buffer_unordered delivers them in an arbitrary order; lookups are
insensitive to that order when ids are distinct, see below). -/
def logosMap (resolve : String → TaskResult) (fops : FileOps)
    (items : List Item) : List (Nat × Option String) :=
  items.map (prepareLogoItem resolve fops)

/-- File names created inside the logos output directory by the
concurrent phase (fs::File::create at build.rs line 218): one create per
item whose task succeeded and whose create call succeeded. -/
def logoFilesCreated (resolve : String → TaskResult) (fops : FileOps)
    (items : List Item) : List String :=
  items.filterMap (fun item =>
    match resolve item.logo with
    | TaskResult.ok logo =>
        let file_name := logo.digest ++ ".svg"
        if fops.createOk file_name then some file_name else none
    | _ => none)

/-- Distinct file names present in the logos output directory after the
concurrent phase: creating the same name twice truncates and rewrites a
single file, so the tree holds the deduplicated names. -/
def logoFilesInTree (resolve : String → TaskResult) (fops : FileOps)
    (items : List Item) : List String :=
  (logoFilesCreated resolve fops items).dedup

/-- Lookup in the results map (HashMap::get at build.rs line 234),
modelled on the association list of collected (id, outcome) pairs. -/
def lookupId (k : Nat) : List (Nat × Option String) → Option (Option String)
  | [] => none
  | (k2, v) :: rest => if k = k2 then some v else lookupId k rest

/-- Translation of the final update loop of prepare_logos (build.rs lines
233 to 239): each item's logo field is set from the results map by its id,
defaulting to the empty string when the id is absent or mapped to None. -/
def updateLogos (m : List (Nat × Option String)) (items : List Item) :
    List Item :=
  items.map (fun item =>
    { item with
      logo := match lookupId item.id m with
        | some (some logo) => logo
        | _ => "" })

/-- Items after prepare_logos: the concurrent phase followed by the
update loop on the canonical (stream-order) results map. -/
def prepare_logosItems (resolve : String → TaskResult) (fops : FileOps)
    (items : List Item) : List Item :=
  updateLogos (logosMap resolve fops items) items

/-- Translation of prepare_logos (build.rs lines 178 to 242): the body
contains no fallible operator, every per-item failure is handled inline,
and the function ends with Ok(()); the updated items stand in for the
in-place mutation of landscape_data. -/
def prepare_logos (resolve : String → TaskResult) (fops : FileOps)
    (items : List Item) : Except String (List Item) :=
  Except.ok (prepare_logosItems resolve fops items)

/-- Concurrency budget of prepare_logos (build.rs lines 187 to 190):
num_cpus::get(), clamped to PREPARE_LOGOS_MAX_CONCURRENCY. -/
def logosConcurrency (numCpus : Nat) : Nat :=
  if numCpus > PREPARE_LOGOS_MAX_CONCURRENCY then PREPARE_LOGOS_MAX_CONCURRENCY
  else numCpus

/-- Translation of std::fs::create_dir_all: succeeds whether or not the
path already exists, creating it (and any missing parents, which the
paths used by setup_output_dir make implicit) when absent. The
filesystem is modelled as the list of existing paths. -/
def create_dir_all (fs : List String) (p : String) : List String :=
  if p ∈ fs then fs else p :: fs

/-- Translation of std::fs::create_dir: creates the path, failing with
AlreadyExists when it is already present. -/
def create_dir (fs : List String) (p : String) : Except String (List String) :=
  if p ∈ fs then Except.error "AlreadyExists" else Except.ok (p :: fs)

/-- Translation of setup_output_dir (build.rs lines 273 to 290): the
output directory is created with create_dir_all only when absent, then
the datasets and logos subdirectories are each created with create_dir
only when absent. -/
def setup_output_dir (outDir : String) (fs : List String) :
    Except String (List String) :=
  let fs1 := if outDir ∈ fs then fs else create_dir_all fs outDir
  let datasets_path := outDir ++ "/" ++ DATASETS_PATH
  match (if datasets_path ∈ fs1 then Except.ok fs1
         else create_dir fs1 datasets_path) with
  | Except.error e => Except.error e
  | Except.ok fs2 =>
    let logos_path := outDir ++ "/" ++ LOGOS_PATH
    match (if logos_path ∈ fs2 then Except.ok fs2
           else create_dir fs2 logos_path) with
    | Except.error e => Except.error e
    | Except.ok fs3 => Except.ok fs3

/-- State of the buffer_unordered execution at build.rs line 228: items
whose task has not been spawned yet (in stream order), items whose task
is currently in flight, and the results already collected. -/
structure MapperState where
  pending : List Item
  inflight : List Item
  done : List (Nat × Option String)
deriving DecidableEq, Repr

/-- Small-step semantics of stream::iter(..).map(..).buffer_unordered(c):
a new task is started only while fewer than c are in flight, taking the
next item in stream order; an in-flight task may finish at any time (in
any order), contributing its (id, outcome) pair to the collected
results. -/
inductive MapperStep (resolve : String → TaskResult) (fops : FileOps)
    (c : Nat) : MapperState → MapperState → Prop where
  | start (it : Item) (rest fl : List Item)
      (d : List (Nat × Option String)) :
      fl.length < c →
      MapperStep resolve fops c ⟨it :: rest, fl, d⟩ ⟨rest, it :: fl, d⟩
  | finish (p fl : List Item) (d : List (Nat × Option String))
      (it : Item) :
      it ∈ fl →
      MapperStep resolve fops c ⟨p, fl, d⟩
        ⟨p, fl.erase it, prepareLogoItem resolve fops it :: d⟩

/-- Initial mapper state: every item pending, nothing in flight. -/
def mapperInit (items : List Item) : MapperState :=
  { pending := items, inflight := [], done := [] }

/-- States the buffer_unordered execution can reach from the initial
state for the given item list. -/
def mapperReachable (resolve : String → TaskResult) (fops : FileOps)
    (c : Nat) (items : List Item) (s : MapperState) : Prop :=
  Relation.ReflTransGen (MapperStep resolve fops c) (mapperInit items) s

/-- Files of the output tree, by location: a file in the logos dir, the
two dataset files of generate_datasets, the rendered index of
render_index, or a copied web asset of copy_web_assets. -/
inductive OutFile where
  | logoFile : String → OutFile
  | dataBase : OutFile
  | dataFull : OutFile
  | indexHtml : OutFile
  | webAsset : String → OutFile
deriving DecidableEq, Repr

/-- Translation of tokio::try_join! (build.rs lines 89 to 92) at the
level of outcomes: both results when both operations succeed, and the
failing operation's error as soon as either fails (the other operation's
outcome is discarded). -/
def tryJoin {α β : Type} (a : Except String α) (b : Except String β) :
    Except String (α × β) :=
  match a with
  | Except.error e => Except.error e
  | Except.ok x =>
      match b with
      | Except.error e => Except.error e
      | Except.ok y => Except.ok (x, y)

/-- Outcomes of the collaborator stages the build orchestrator sequences,
abstracted to their contracts: each field is the result the corresponding
call would produce. The post-join stages (generate_datasets,
render_index, copy_web_assets) are pairs of their outcome and the output
files they would write, since the build may stop before reaching them. -/
structure BuildEnv where
  webAssetsPresent : Bool
  setupOutput : Except String Unit
  cacheInit : Except String Unit
  landscape : Except String (List Item)
  settings : Except String Unit
  enrich : Except String Unit
  resolve : String → TaskResult
  fops : FileOps
  procEnv : Env
  crunchbase : Except String Nat
  github : Except String Nat
  merge : Except String Unit
  genDatasets : Except String Unit × List OutFile
  renderIndex : Except String Unit × List OutFile
  copyAssets : Except String Unit × List OutFile

/-- Translation of build (build.rs lines 61 to 111): the stages run in
source order, each fatal error (the question-mark operator) stopping the
run with that error and with only the files written so far. The logo
stage contributes its files and never stops the run; the external-data
stage is the tryJoin of the two collectors, using credentials read just
before it. -/
def build (benv : BuildEnv) : Except String Unit × List OutFile :=
  if benv.webAssetsPresent = false then
    (Except.error "web assets not found, please make sure they have been built", [])
  else match benv.setupOutput with
  | Except.error e => (Except.error e, [])
  | Except.ok _ =>
    match benv.cacheInit with
    | Except.error e => (Except.error e, [])
    | Except.ok _ =>
    match benv.landscape with
    | Except.error e => (Except.error e, [])
    | Except.ok items =>
      match benv.settings with
      | Except.error e => (Except.error e, [])
      | Except.ok _ =>
        match benv.enrich with
        | Except.error e => (Except.error e, [])
        | Except.ok _ =>
          let logoFiles :=
            (logoFilesCreated benv.resolve benv.fops items).map OutFile.logoFile
          match prepare_logos benv.resolve benv.fops items with
          | Except.error e => (Except.error e, logoFiles)
          | Except.ok _ =>
            let _credentials := read_credentials benv.procEnv
            match tryJoin benv.crunchbase benv.github with
            | Except.error e => (Except.error e, logoFiles)
            | Except.ok _ =>
              match benv.merge with
              | Except.error e => (Except.error e, logoFiles)
              | Except.ok _ =>
                match benv.genDatasets.1 with
                | Except.error e => (Except.error e, logoFiles ++ benv.genDatasets.2)
                | Except.ok _ =>
                  match benv.renderIndex.1 with
                  | Except.error e =>
                      (Except.error e,
                        logoFiles ++ benv.genDatasets.2 ++ benv.renderIndex.2)
                  | Except.ok _ =>
                    match benv.copyAssets.1 with
                    | Except.error e =>
                        (Except.error e,
                          logoFiles ++ benv.genDatasets.2 ++ benv.renderIndex.2 ++
                            benv.copyAssets.2)
                    | Except.ok _ =>
                        (Except.ok (),
                          logoFiles ++ benv.genDatasets.2 ++ benv.renderIndex.2 ++
                            benv.copyAssets.2)

/-- Modelled from the spec (refinement definition, for comparison with
the source translation): the logo field the spec promises each entity
after the logo stage when file creation succeeds — the relative path
logos/<digest>.svg on success, the empty string on any resolver or task
failure. -/
def specLogoField (resolve : String → TaskResult) (it : Item) : String :=
  match resolve it.logo with
  | TaskResult.ok logo => LOGOS_PATH ++ "/" ++ logo.digest ++ ".svg"
  | _ => ""

/-!
Theorems below. First, helper lemmas shared by several claims.
-/

/-- Key of a per-item result is the item's id, whatever the outcome. -/
theorem prepareLogoItem_fst (resolve : String → TaskResult) (fops : FileOps)
    (it : Item) : (prepareLogoItem resolve fops it).1 = it.id := by
  unfold prepareLogoItem
  cases resolve it.logo with
  | ok logo =>
      dsimp only
      split <;> rfl
  | opErr => rfl
  | joinErr => rfl

/-- Looking up an item's id in the canonical results map yields that
item's own outcome, provided the ids are distinct. -/
theorem lookupId_logosMap (resolve : String → TaskResult) (fops : FileOps) :
    ∀ {items : List Item}, (items.map Item.id).Nodup →
      ∀ {it : Item}, it ∈ items →
        lookupId it.id (logosMap resolve fops items) =
          some (prepareLogoItem resolve fops it).2 := by
  intro items
  induction items with
  | nil => intro _ it hit; cases hit
  | cons hd t ih =>
      intro hnd it hit
      simp only [List.map_cons, List.nodup_cons] at hnd
      rcases hp : prepareLogoItem resolve fops hd with ⟨k, v⟩
      have hk : k = hd.id := by
        have := prepareLogoItem_fst resolve fops hd
        rw [hp] at this
        exact this
      rcases List.mem_cons.mp hit with rfl | hmem
      · subst hk
        simp only [logosMap, List.map_cons]
        rw [hp]
        simp [lookupId]
      · have hne : it.id ≠ hd.id := by
          intro he
          exact hnd.1 (he ▸ List.mem_map.mpr ⟨it, hmem, rfl⟩)
        subst hk
        simp only [logosMap, List.map_cons]
        rw [hp]
        simp only [lookupId]
        rw [if_neg hne]
        exact ih hnd.2 hmem

/-- Closed form of the logo stage when ids are distinct: each item keeps
its id and every other field, and its logo field becomes its own task's
outcome (or the empty string when that outcome is absent). -/
theorem prepare_logosItems_eq (resolve : String → TaskResult)
    (fops : FileOps) {items : List Item}
    (hids : (items.map Item.id).Nodup) :
    prepare_logosItems resolve fops items =
      items.map (fun it =>
        { it with
          logo := match (prepareLogoItem resolve fops it).2 with
            | some logo => logo
            | none => "" }) := by
  unfold prepare_logosItems updateLogos
  refine List.map_congr_left ?_
  intro it hit
  rw [lookupId_logosMap resolve fops hids hit]
  rcases (prepareLogoItem resolve fops it).2 with _ | logo <;> rfl

/-- C4: read_credentials parses the GITHUB_TOKENS variable by splitting
on commas with no trimming or further validation — the value "t1,t2,t3"
yields the ordered list ["t1", "t2", "t3"], an unset variable yields no
tokens, pieces keep their surrounding spaces — and CRUNCHBASE_API_KEY,
when set, is taken as a single string value. -/
theorem read_credentials_split_spec :
    (∀ k, (read_credentials ⟨k, some "t1,t2,t3"⟩).github_tokens =
      some ["t1", "t2", "t3"]) ∧
    (∀ k, (read_credentials ⟨k, none⟩).github_tokens = none) ∧
    (read_credentials ⟨none, some " t1 , t2"⟩).github_tokens =
      some [" t1 ", " t2"] ∧
    (∀ key v, (read_credentials ⟨some key, v⟩).crunchbase_api_key =
      some key) := by
  refine ⟨fun k => ?_, fun k => rfl, ?_, fun key v => rfl⟩
  · show some (splitComma "t1,t2,t3") = some ["t1", "t2", "t3"]
    decide
  · show some (splitComma " t1 , t2") = some [" t1 ", " t2"]
    decide

/-- C10: setting GITHUB_TOKENS to the empty string yields a one-element
token list containing the empty string, not an empty list, and
consecutive commas yield empty-string tokens. -/
theorem read_credentials_empty_value :
    (read_credentials ⟨none, some ""⟩).github_tokens = some [""] ∧
    (read_credentials ⟨none, some "t1,,t3"⟩).github_tokens =
      some ["t1", "", "t3"] ∧
    (read_credentials ⟨none, some ""⟩).github_tokens ≠ some [] := by
  refine ⟨by decide, by decide, by decide⟩

/-- Adding a path that is already present changes nothing. -/
theorem create_dir_all_of_mem {fs : List String} {p : String}
    (h : p ∈ fs) : create_dir_all fs p = fs := by
  simp [create_dir_all, h]

/-- create_dir_all never removes a path. -/
theorem create_dir_all_mem (fs : List String) (p q : String)
    (h : q ∈ fs) : q ∈ create_dir_all fs p := by
  unfold create_dir_all
  split
  · exact h
  · exact List.mem_cons_of_mem _ h

/-- create_dir_all makes its path present. -/
theorem create_dir_all_self (fs : List String) (p : String) :
    p ∈ create_dir_all fs p := by
  unfold create_dir_all
  split
  · assumption
  · exact List.mem_cons_self _ _

/-- The exists-guarded create_dir calls of setup_output_dir never fail
and amount to create_dir_all. -/
theorem create_dir_guarded (fs : List String) (p : String) :
    (if p ∈ fs then Except.ok fs else create_dir fs p) =
      Except.ok (create_dir_all fs p) := by
  by_cases h : p ∈ fs <;> simp [create_dir, create_dir_all, h]

/-- The exists-guarded create_dir_all call of setup_output_dir amounts
to a bare create_dir_all. -/
theorem create_dir_all_guarded (fs : List String) (p : String) :
    (if p ∈ fs then fs else create_dir_all fs p) = create_dir_all fs p := by
  by_cases h : p ∈ fs <;> simp [create_dir_all, h]

/-- Closed form of setup_output_dir: it always succeeds, returning the
tree with the three directories added when absent. -/
theorem setup_output_dir_eq (outDir : String) (fs : List String) :
    setup_output_dir outDir fs =
      Except.ok (create_dir_all (create_dir_all (create_dir_all fs outDir)
        (outDir ++ "/" ++ DATASETS_PATH)) (outDir ++ "/" ++ LOGOS_PATH)) := by
  unfold setup_output_dir
  simp only [create_dir_all_guarded, create_dir_guarded]

/-- C9: setup_output_dir is idempotent: it succeeds on any tree, never
deletes an existing path, and running it again on the resulting
already-populated tree succeeds and leaves the tree unchanged. -/
theorem setup_output_dir_idempotent (outDir : String) (fs : List String) :
    ∃ fs2, setup_output_dir outDir fs = Except.ok fs2 ∧
      (∀ p, p ∈ fs → p ∈ fs2) ∧
      setup_output_dir outDir fs2 = Except.ok fs2 := by
  refine ⟨_, setup_output_dir_eq outDir fs, ?_, ?_⟩
  · intro p hp
    exact create_dir_all_mem _ _ _
      (create_dir_all_mem _ _ _ (create_dir_all_mem _ _ _ hp))
  · rw [setup_output_dir_eq]
    have hout : outDir ∈ create_dir_all (create_dir_all
        (create_dir_all fs outDir) (outDir ++ "/" ++ DATASETS_PATH))
        (outDir ++ "/" ++ LOGOS_PATH) :=
      create_dir_all_mem _ _ _
        (create_dir_all_mem _ _ _ (create_dir_all_self fs outDir))
    have hdp : outDir ++ "/" ++ DATASETS_PATH ∈ create_dir_all
        (create_dir_all (create_dir_all fs outDir)
          (outDir ++ "/" ++ DATASETS_PATH)) (outDir ++ "/" ++ LOGOS_PATH) :=
      create_dir_all_mem _ _ _ (create_dir_all_self _ _)
    have hlp : outDir ++ "/" ++ LOGOS_PATH ∈ create_dir_all
        (create_dir_all (create_dir_all fs outDir)
          (outDir ++ "/" ++ DATASETS_PATH)) (outDir ++ "/" ++ LOGOS_PATH) :=
      create_dir_all_self _ _
    rw [create_dir_all_of_mem hout, create_dir_all_of_mem hdp,
      create_dir_all_of_mem hlp]

/-- C6: the logo-stage concurrency budget equals
min(available_parallelism, 20), and in every state the buffer_unordered
execution can reach, the number of in-flight logo tasks is at most that
budget. -/
theorem prepare_logos_concurrency_bound (numCpus : Nat)
    (resolve : String → TaskResult) (fops : FileOps) (items : List Item)
    (s : MapperState)
    (hs : mapperReachable resolve fops (logosConcurrency numCpus) items s) :
    logosConcurrency numCpus = min numCpus PREPARE_LOGOS_MAX_CONCURRENCY ∧
    s.inflight.length ≤ logosConcurrency numCpus := by
  constructor
  · unfold logosConcurrency PREPARE_LOGOS_MAX_CONCURRENCY
    split <;> omega
  · unfold mapperReachable at hs
    induction hs with
    | refl => simp [mapperInit]
    | tail h step ih =>
        cases step with
        | start it rest fl d hlt => simpa using hlt
        | finish p fl d it hmem =>
            have h1 := List.length_erase_add_one hmem
            have ih2 : fl.length ≤ logosConcurrency numCpus := ih
            show (fl.erase it).length ≤ logosConcurrency numCpus
            omega

/-- Witness for C6: after starting the first item's task on a 4-cpu
machine, one task is in flight, within the budget min(4, 20). -/
theorem prepare_logos_concurrency_bound_witness :
    logosConcurrency 4 = min 4 PREPARE_LOGOS_MAX_CONCURRENCY ∧
    (MapperState.mk [] [Item.mk 0 "" 0] []).inflight.length ≤
      logosConcurrency 4 :=
  prepare_logos_concurrency_bound 4 (fun _ => TaskResult.opErr)
    ⟨fun _ => true, fun _ => true⟩ [Item.mk 0 "" 0] ⟨[], [Item.mk 0 "" 0], []⟩
    (Relation.ReflTransGen.single
      (MapperStep.start (Item.mk 0 "" 0) [] [] [] (by decide)))

/-- When file creation always succeeds, an item's recorded outcome is
exactly the spec's promised logo field. -/
theorem itemOutcome_with_create (resolve : String → TaskResult)
    (fops : FileOps) (it : Item)
    (hcreate : ∀ fn, fops.createOk fn = true) :
    (match (prepareLogoItem resolve fops it).2 with
      | some logo => logo
      | none => "") = specLogoField resolve it := by
  unfold prepareLogoItem specLogoField
  cases resolve it.logo with
  | ok logo => simp [hcreate, String.append_assoc]
  | opErr => rfl
  | joinErr => rfl

/-- C1: with distinct ids and file creation succeeding, each entity's
outcome depends only on its own resolver call: a resolver (op) failure or
a task (join) failure leaves exactly that entity's logo empty, every
successfully resolved entity gets the non-empty path logos/<digest>.svg,
no other entity is affected, and prepare_logos returns success
regardless of per-item failures. -/
theorem prepare_logos_isolation (resolve : String → TaskResult)
    (fops : FileOps) (items : List Item)
    (hids : (items.map Item.id).Nodup)
    (hcreate : ∀ fn, fops.createOk fn = true) :
    prepare_logos resolve fops items =
      Except.ok (items.map (fun it =>
        { it with logo := specLogoField resolve it })) ∧
    (∀ d : String, LOGOS_PATH ++ "/" ++ d ++ ".svg" ≠ "") ∧
    (∀ r f l, ∃ out, prepare_logos r f l = Except.ok out) := by
  refine ⟨?_, ?_, fun r f l => ⟨_, rfl⟩⟩
  · unfold prepare_logos
    rw [prepare_logosItems_eq resolve fops hids]
    congr 1
    refine List.map_congr_left ?_
    intro it hit
    rw [itemOutcome_with_create resolve fops it hcreate]
  · intro d h
    have h2 := congrArg String.length h
    simp [LOGOS_PATH, String.length_append, String.length_empty] at h2
    have h3 : ".svg".length = 4 := rfl
    omega

/-- Witness for C1: two entities, the resolver failing for the first and
succeeding for the second; the first ends with an empty logo, the second
with logos/d1.svg, and the call returns success. -/
theorem prepare_logos_isolation_witness :
    prepare_logos
        (fun s => if s = "a" then TaskResult.opErr
          else TaskResult.ok ⟨"d1", [1]⟩)
        ⟨fun _ => true, fun _ => true⟩ [⟨1, "a", 0⟩, ⟨2, "b", 0⟩] =
      Except.ok (([⟨1, "a", 0⟩, ⟨2, "b", 0⟩] : List Item).map (fun it =>
        { it with
          logo := specLogoField
            (fun s => if s = "a" then TaskResult.opErr
              else TaskResult.ok ⟨"d1", [1]⟩) it })) ∧
    (∀ d : String, LOGOS_PATH ++ "/" ++ d ++ ".svg" ≠ "") ∧
    (∀ r f l, ∃ out, prepare_logos r f l = Except.ok out) :=
  prepare_logos_isolation
    (fun s => if s = "a" then TaskResult.opErr else TaskResult.ok ⟨"d1", [1]⟩)
    ⟨fun _ => true, fun _ => true⟩ [⟨1, "a", 0⟩, ⟨2, "b", 0⟩]
    (by decide) (fun fn => rfl)

/-- C5: the logo stage preserves entity identities: prepare_logos
succeeds and the list of ids after it equals the list before it — no
entity is added, removed, duplicated, or reordered. -/
theorem prepare_logos_preserves_ids (resolve : String → TaskResult)
    (fops : FileOps) (items : List Item) :
    ∃ out, prepare_logos resolve fops items = Except.ok out ∧
      out.map Item.id = items.map Item.id := by
  refine ⟨_, rfl, ?_⟩
  unfold prepare_logosItems updateLogos
  rw [List.map_map]
  exact List.map_congr_left fun it _ => rfl

/-- C2 counterexample: an entity whose logo file is created but whose
byte write fails still ends with the non-empty logo path logos/d0.svg,
contradicting the claim that every failure of any part of the logo
operation (including the write) leaves the logo empty. -/
theorem prepare_logos_write_failure_cex :
    (FileOps.mk (fun _ => true) (fun _ => false)).writeOk "d0.svg" = false ∧
    prepare_logosItems (fun _ => TaskResult.ok ⟨"d0", [1]⟩)
        (FileOps.mk (fun _ => true) (fun _ => false)) [⟨7, "ref", 3⟩] =
      [⟨7, "logos/d0.svg", 3⟩] ∧
    ("logos/d0.svg" : String) ≠ "" := by
  refine ⟨rfl, by decide, by decide⟩

/-- C2 amended: an entity's final logo is empty exactly when its
resolver or task fails or creating the output file fails; when the file
is created, a failing byte write is only logged and the logo is still
set to logos/<digest>.svg — so the final logo never references a file
that was not created, though it may reference one not fully written. -/
theorem prepare_logos_failure_empty_amended (resolve : String → TaskResult)
    (fops : FileOps) (items : List Item)
    (hids : (items.map Item.id).Nodup) :
    prepare_logosItems resolve fops items =
      items.map (fun it =>
        { it with
          logo := match resolve it.logo with
            | TaskResult.ok logo =>
                if fops.createOk (logo.digest ++ ".svg") then
                  LOGOS_PATH ++ "/" ++ logo.digest ++ ".svg"
                else ""
            | _ => "" }) ∧
    (∀ it ∈ items, ∀ logo, resolve it.logo = TaskResult.ok logo →
      fops.createOk (logo.digest ++ ".svg") = true →
      (logo.digest ++ ".svg") ∈ logoFilesCreated resolve fops items) := by
  constructor
  · rw [prepare_logosItems_eq resolve fops hids]
    refine List.map_congr_left ?_
    intro it hit
    unfold prepareLogoItem
    cases resolve it.logo with
    | ok logo =>
        dsimp only
        by_cases hc : fops.createOk (logo.digest ++ ".svg")
        · simp [hc, String.append_assoc]
        · simp [hc]
    | opErr => rfl
    | joinErr => rfl
  · intro it hmem logo hres hc
    unfold logoFilesCreated
    refine List.mem_filterMap.mpr ⟨it, hmem, ?_⟩
    rw [hres]
    simp [hc]

/-- Witness for C2 amended: one entity with a created but unwritten
logo file; its final logo is the path and the file was created. -/
theorem prepare_logos_failure_empty_amended_witness :
    prepare_logosItems (fun _ => TaskResult.ok ⟨"d0", [1]⟩)
        (FileOps.mk (fun _ => true) (fun _ => false)) [⟨7, "ref", 3⟩] =
      ([⟨7, "ref", 3⟩] : List Item).map (fun it =>
        { it with
          logo := match (fun _ => TaskResult.ok ⟨"d0", [1]⟩) it.logo with
            | TaskResult.ok logo =>
                if (FileOps.mk (fun _ => true) (fun _ => false)).createOk
                    (logo.digest ++ ".svg") then
                  LOGOS_PATH ++ "/" ++ logo.digest ++ ".svg"
                else ""
            | _ => "" }) ∧
    (∀ it ∈ [(⟨7, "ref", 3⟩ : Item)], ∀ logo,
      (fun _ => TaskResult.ok ⟨"d0", [1]⟩) it.logo = TaskResult.ok logo →
      (FileOps.mk (fun _ => true) (fun _ => false)).createOk
          (logo.digest ++ ".svg") = true →
      (logo.digest ++ ".svg") ∈ logoFilesCreated
        (fun _ => TaskResult.ok ⟨"d0", [1]⟩)
        (FileOps.mk (fun _ => true) (fun _ => false)) [⟨7, "ref", 3⟩]) :=
  prepare_logos_failure_empty_amended
    (fun _ => TaskResult.ok ⟨"d0", [1]⟩)
    (FileOps.mk (fun _ => true) (fun _ => false)) [⟨7, "ref", 3⟩]
    (by decide)

/-- Keys of the canonical results map are exactly the item ids, in
order. -/
theorem logosMap_keys (resolve : String → TaskResult) (fops : FileOps)
    (items : List Item) :
    (logosMap resolve fops items).map Prod.fst = items.map Item.id := by
  unfold logosMap
  rw [List.map_map]
  exact List.map_congr_left fun it _ => prepareLogoItem_fst resolve fops it

/-- Lookup in an association list with distinct keys is insensitive to
the order of its entries. -/
theorem lookupId_perm {l1 l2 : List (Nat × Option String)}
    (hp : l1.Perm l2) (hnd : (l1.map Prod.fst).Nodup) (k : Nat) :
    lookupId k l1 = lookupId k l2 := by
  induction hp with
  | nil => rfl
  | cons x h ih =>
      rcases x with ⟨k2, v⟩
      simp only [List.map_cons, List.nodup_cons] at hnd
      simp only [lookupId]
      by_cases hk : k = k2
      · simp [hk]
      · simp only [if_neg hk]
        exact ih hnd.2
  | swap x y t =>
      rcases x with ⟨kx, vx⟩
      rcases y with ⟨ky, vy⟩
      simp only [List.map_cons, List.nodup_cons, List.mem_cons] at hnd
      have hne : ky ≠ kx := fun he => hnd.1 (Or.inl he)
      simp only [lookupId]
      by_cases h1 : k = ky <;> by_cases h2 : k = kx
      · exact absurd (h1 ▸ h2 : ky = kx) hne
      · simp [h1, h2, hne]
      · simp [h1, h2, hne.symm]
      · simp [h1, h2]
  | trans p1 p2 ih1 ih2 =>
      rw [ih1 hnd, ih2 (((p1.map Prod.fst).nodup_iff).mp hnd)]

/-- C7: for any arrival order of the per-item results (any permutation
of the canonical results map), the update loop rebuilds the entity list
in the original load order by identity lookup, mutating only the logo
field: the outcome equals the canonical stream-order one, and the ids,
every other field, and the length are unchanged. -/
theorem prepare_logos_frame (resolve : String → TaskResult)
    (fops : FileOps) (items : List Item)
    (m : List (Nat × Option String))
    (hperm : m.Perm (logosMap resolve fops items))
    (hids : (items.map Item.id).Nodup) :
    updateLogos m items = prepare_logosItems resolve fops items ∧
    (updateLogos m items).map Item.id = items.map Item.id ∧
    (updateLogos m items).map Item.rest = items.map Item.rest ∧
    (updateLogos m items).length = items.length := by
  have hndm : (m.map Prod.fst).Nodup := by
    rw [(hperm.map Prod.fst).nodup_iff, logosMap_keys]
    exact hids
  refine ⟨?_, ?_, ?_, ?_⟩
  · unfold prepare_logosItems updateLogos
    refine List.map_congr_left ?_
    intro it hit
    rw [lookupId_perm hperm hndm it.id]
  · unfold updateLogos
    rw [List.map_map]
    exact List.map_congr_left fun it _ => rfl
  · unfold updateLogos
    rw [List.map_map]
    exact List.map_congr_left fun it _ => rfl
  · unfold updateLogos
    exact List.length_map _ _

/-- Witness for C7: two entities whose results arrive in reversed
order; the rebuilt list equals the canonical one, with ids, other
fields, and length unchanged. -/
theorem prepare_logos_frame_witness :
    updateLogos
        [(2, some "logos/d2.svg"), (1, some "logos/d1.svg")]
        [⟨1, "a", 5⟩, ⟨2, "b", 7⟩] =
      prepare_logosItems
        (fun s => if s = "a" then TaskResult.ok ⟨"d1", [1]⟩
          else TaskResult.ok ⟨"d2", [2]⟩)
        ⟨fun _ => true, fun _ => true⟩ [⟨1, "a", 5⟩, ⟨2, "b", 7⟩] ∧
    (updateLogos [(2, some "logos/d2.svg"), (1, some "logos/d1.svg")]
        [⟨1, "a", 5⟩, ⟨2, "b", 7⟩]).map Item.id =
      ([⟨1, "a", 5⟩, ⟨2, "b", 7⟩] : List Item).map Item.id ∧
    (updateLogos [(2, some "logos/d2.svg"), (1, some "logos/d1.svg")]
        [⟨1, "a", 5⟩, ⟨2, "b", 7⟩]).map Item.rest =
      ([⟨1, "a", 5⟩, ⟨2, "b", 7⟩] : List Item).map Item.rest ∧
    (updateLogos [(2, some "logos/d2.svg"), (1, some "logos/d1.svg")]
        [⟨1, "a", 5⟩, ⟨2, "b", 7⟩]).length =
      ([⟨1, "a", 5⟩, ⟨2, "b", 7⟩] : List Item).length :=
  prepare_logos_frame
    (fun s => if s = "a" then TaskResult.ok ⟨"d1", [1]⟩
      else TaskResult.ok ⟨"d2", [2]⟩)
    ⟨fun _ => true, fun _ => true⟩ [⟨1, "a", 5⟩, ⟨2, "b", 7⟩]
    [(2, some "logos/d2.svg"), (1, some "logos/d1.svg")]
    (by decide) (by decide)

/-- C8: two distinct entities whose resolved logo bytes share a content
digest yield exactly one file named by that digest in the logos output
tree, and both entities' final logo fields reference that same path. -/
theorem prepare_logos_digest_dedup (resolve : String → TaskResult)
    (fops : FileOps) (items : List Item) (it1 it2 : Item) (d : String)
    (b1 b2 : List Nat)
    (hids : (items.map Item.id).Nodup)
    (hm1 : it1 ∈ items) (_hm2 : it2 ∈ items) (_hne : it1 ≠ it2)
    (h1 : resolve it1.logo = TaskResult.ok ⟨d, b1⟩)
    (h2 : resolve it2.logo = TaskResult.ok ⟨d, b2⟩)
    (hcreate : ∀ fn, fops.createOk fn = true) :
    (logoFilesInTree resolve fops items).count (d ++ ".svg") = 1 ∧
    prepare_logosItems resolve fops items =
      items.map (fun it => { it with logo := specLogoField resolve it }) ∧
    specLogoField resolve it1 = LOGOS_PATH ++ "/" ++ d ++ ".svg" ∧
    specLogoField resolve it2 = LOGOS_PATH ++ "/" ++ d ++ ".svg" := by
  refine ⟨?_, ?_, ?_, ?_⟩
  · have hmem : (d ++ ".svg") ∈ logoFilesCreated resolve fops items := by
      unfold logoFilesCreated
      refine List.mem_filterMap.mpr ⟨it1, hm1, ?_⟩
      rw [h1]
      simp [hcreate]
    exact List.count_eq_one_of_mem (List.nodup_dedup _)
      (List.mem_dedup.mpr hmem)
  · rw [prepare_logosItems_eq resolve fops hids]
    refine List.map_congr_left ?_
    intro it hit
    rw [itemOutcome_with_create resolve fops it hcreate]
  · unfold specLogoField
    rw [h1]
  · unfold specLogoField
    rw [h2]

/-- Witness for C8: two entities with different ids and different
source references resolving to the same digest d; the tree holds one
file d.svg and both final logos are logos/d.svg. -/
theorem prepare_logos_digest_dedup_witness :
    (logoFilesInTree (fun _ => TaskResult.ok ⟨"d", [9]⟩)
        ⟨fun _ => true, fun _ => true⟩
        [⟨1, "a", 0⟩, ⟨2, "b", 0⟩]).count ("d" ++ ".svg") = 1 ∧
    prepare_logosItems (fun _ => TaskResult.ok ⟨"d", [9]⟩)
        ⟨fun _ => true, fun _ => true⟩ [⟨1, "a", 0⟩, ⟨2, "b", 0⟩] =
      ([⟨1, "a", 0⟩, ⟨2, "b", 0⟩] : List Item).map (fun it =>
        { it with
          logo := specLogoField (fun _ => TaskResult.ok ⟨"d", [9]⟩) it }) ∧
    specLogoField (fun _ => TaskResult.ok ⟨"d", [9]⟩) ⟨1, "a", 0⟩ =
      LOGOS_PATH ++ "/" ++ "d" ++ ".svg" ∧
    specLogoField (fun _ => TaskResult.ok ⟨"d", [9]⟩) ⟨2, "b", 0⟩ =
      LOGOS_PATH ++ "/" ++ "d" ++ ".svg" :=
  prepare_logos_digest_dedup (fun _ => TaskResult.ok ⟨"d", [9]⟩)
    ⟨fun _ => true, fun _ => true⟩ [⟨1, "a", 0⟩, ⟨2, "b", 0⟩]
    ⟨1, "a", 0⟩ ⟨2, "b", 0⟩ "d" [9] [9]
    (by decide) (by decide) (by decide) (by decide) rfl rfl
    (fun fn => rfl)

/-- C3: when every stage before the external-data join succeeds and
either collector fails, the build's outcome is exactly that collector's
error, the other collector's result is discarded, and the run produces
no dataset files, no rendered index, and no copied assets — only files
in the logos directory. -/
theorem build_collector_failure (benv : BuildEnv) (e : String)
    (items : List Item)
    (hweb : benv.webAssetsPresent = true)
    (hsetup : benv.setupOutput = Except.ok ())
    (hcache : benv.cacheInit = Except.ok ())
    (hland : benv.landscape = Except.ok items)
    (hsettings : benv.settings = Except.ok ())
    (henrich : benv.enrich = Except.ok ())
    (hfail : benv.crunchbase = Except.error e ∨
      (∃ a, benv.crunchbase = Except.ok a ∧
        benv.github = Except.error e)) :
    (build benv).1 = Except.error e ∧
    (build benv).2 =
      (logoFilesCreated benv.resolve benv.fops items).map
        OutFile.logoFile ∧
    (∀ f ∈ (build benv).2, ∃ n, f = OutFile.logoFile n) := by
  have hjoin : tryJoin benv.crunchbase benv.github =
      (Except.error e : Except String (Nat × Nat)) := by
    rcases hfail with hcb | ⟨a, hcb, hgh⟩
    · unfold tryJoin
      rw [hcb]
    · unfold tryJoin
      rw [hcb, hgh]
  have hb : build benv =
      (Except.error e,
        (logoFilesCreated benv.resolve benv.fops items).map
          OutFile.logoFile) := by
    unfold build
    rw [hweb, hsetup, hcache, hland, hsettings, henrich]
    simp only [Bool.true_eq_false, if_false, prepare_logos, hjoin]
  refine ⟨by rw [hb], by rw [hb], ?_⟩
  rw [hb]
  intro f hf
  rcases List.mem_map.mp hf with ⟨n, _, rfl⟩
  exact ⟨n, rfl⟩

/-- Witness for C3: a build whose Crunchbase collector fails with boom
while the GitHub collector succeeds; the run's outcome is that error and
the output holds no dataset, index, or asset file. -/
theorem build_collector_failure_witness :
    (build
        { webAssetsPresent := true
          setupOutput := Except.ok ()
          cacheInit := Except.ok ()
          landscape := Except.ok []
          settings := Except.ok ()
          enrich := Except.ok ()
          resolve := fun _ => TaskResult.opErr
          fops := ⟨fun _ => true, fun _ => true⟩
          procEnv := ⟨none, none⟩
          crunchbase := Except.error "boom"
          github := Except.ok 0
          merge := Except.ok ()
          genDatasets := (Except.ok (), [OutFile.dataBase, OutFile.dataFull])
          renderIndex := (Except.ok (), [OutFile.indexHtml])
          copyAssets := (Except.ok (), [OutFile.webAsset "app.js"]) }).1 =
      Except.error "boom" ∧
    (build
        { webAssetsPresent := true
          setupOutput := Except.ok ()
          cacheInit := Except.ok ()
          landscape := Except.ok []
          settings := Except.ok ()
          enrich := Except.ok ()
          resolve := fun _ => TaskResult.opErr
          fops := ⟨fun _ => true, fun _ => true⟩
          procEnv := ⟨none, none⟩
          crunchbase := Except.error "boom"
          github := Except.ok 0
          merge := Except.ok ()
          genDatasets := (Except.ok (), [OutFile.dataBase, OutFile.dataFull])
          renderIndex := (Except.ok (), [OutFile.indexHtml])
          copyAssets := (Except.ok (), [OutFile.webAsset "app.js"]) }).2 =
      (logoFilesCreated (fun _ => TaskResult.opErr)
        ⟨fun _ => true, fun _ => true⟩ []).map OutFile.logoFile ∧
    (∀ f ∈ (build
        { webAssetsPresent := true
          setupOutput := Except.ok ()
          cacheInit := Except.ok ()
          landscape := Except.ok []
          settings := Except.ok ()
          enrich := Except.ok ()
          resolve := fun _ => TaskResult.opErr
          fops := ⟨fun _ => true, fun _ => true⟩
          procEnv := ⟨none, none⟩
          crunchbase := Except.error "boom"
          github := Except.ok 0
          merge := Except.ok ()
          genDatasets := (Except.ok (), [OutFile.dataBase, OutFile.dataFull])
          renderIndex := (Except.ok (), [OutFile.indexHtml])
          copyAssets := (Except.ok (), [OutFile.webAsset "app.js"]) }).2,
      ∃ n, f = OutFile.logoFile n) :=
  build_collector_failure
    { webAssetsPresent := true
      setupOutput := Except.ok ()
      cacheInit := Except.ok ()
      landscape := Except.ok []
      settings := Except.ok ()
      enrich := Except.ok ()
      resolve := fun _ => TaskResult.opErr
      fops := ⟨fun _ => true, fun _ => true⟩
      procEnv := ⟨none, none⟩
      crunchbase := Except.error "boom"
      github := Except.ok 0
      merge := Except.ok ()
      genDatasets := (Except.ok (), [OutFile.dataBase, OutFile.dataFull])
      renderIndex := (Except.ok (), [OutFile.indexHtml])
      copyAssets := (Except.ok (), [OutFile.webAsset "app.js"]) }
    "boom" [] rfl rfl rfl rfl rfl rfl (Or.inl rfl)

end Landscape2
